import Mathlib

/-!
Shallow embedding of the `simple-go-rest-api` server (`src/main.go`).

The program is a small HTTP resource server over an in-memory coaster
store.  We embed the data model (the `coaster` struct and the store map),
the HTTP response-writer semantics (first `WriteHeader` wins, a `Write`
before any `WriteHeader` implicitly sets status 200), and the four
handlers the claims are about: `post` (POST /coasters), `getRandomCoaster`
(GET /coasters/random), `getCoaster` (GET /coasters/{id}) and the admin
portal handler.  Request-level inputs that Go's runtime supplies (the
parsed JSON body, the random source, the current UnixNano clock) are
explicit parameters.
-/

/-- The `coaster` struct of `main.go`, fields in declaration order.
Note the JSON tag of the second field is `manufactur` in the source. -/
structure Coaster where
  name : String
  manufactur : String
  id : String
  inPark : String
  height : Int
  deriving Repr, DecidableEq

/-- Go's zero value for the `coaster` struct (empty strings, zero int);
this is what `var coasterBody coaster` denotes before `json.Unmarshal`,
and what remains when `Unmarshal` fails on a malformed body. -/
def zeroCoaster : Coaster :=
  { name := "", manufactur := "", id := "", inPark := "", height := 0 }

/-- The store `map[string]coaster`, modelled as an association list with
the usual update-or-append map-assignment semantics. -/
abbrev Store := List (String × Coaster)

/-- Go map read, as in `v, ok := store[k]`. -/
def mapGet (st : Store) (k : String) : Option Coaster :=
  match st with
  | [] => none
  | (k₁, v) :: rest => if k₁ = k then some v else mapGet rest k

/-- Go map assignment, as in `store[k] = v`: overwrite the binding of `k` when
present, otherwise append a new binding. -/
def mapInsert (st : Store) (k : String) (v : Coaster) : Store :=
  match st with
  | [] => [(k, v)]
  | (k₁, v₁) :: rest => if k₁ = k then (k, v) :: rest else (k₁, v₁) :: mapInsert rest k v

/-- The snapshot of keys the handlers collect by ranging over the map. -/
def storeKeys (st : Store) : List String := st.map Prod.fst

/-- The state of Go's `http.ResponseWriter` as the handlers use it:
the status set by the first `WriteHeader`, the sequence of `Write` bodies,
and the headers added via `Header().Add`. -/
structure ResponseWriter where
  status : Option Nat
  body : List String
  headers : List (String × String)
  deriving Repr, DecidableEq

/-- A fresh response writer: nothing written yet. -/
def ResponseWriter.empty : ResponseWriter :=
  { status := none, body := [], headers := [] }

/-- Models `w.WriteHeader(s)`: only the first call sets the status; later calls
are ignored (Go logs a superfluous-call warning and does nothing). -/
def ResponseWriter.writeHeader (w : ResponseWriter) (s : Nat) : ResponseWriter :=
  match w.status with
  | none => { w with status := some s }
  | some _ => w

/-- Models `w.Write(b)`: appends to the body; if no status was set yet, Go
implicitly calls `WriteHeader(200)` first. -/
def ResponseWriter.write (w : ResponseWriter) (s : String) : ResponseWriter :=
  match w.status with
  | none => { w with status := some 200, body := w.body ++ [s] }
  | some _ => { w with body := w.body ++ [s] }

/-- Models `w.Header().Add(k, v)`. -/
def ResponseWriter.addHeader (w : ResponseWriter) (k v : String) : ResponseWriter :=
  { w with headers := w.headers ++ [(k, v)] }

/-- The status actually sent on the wire: the recorded one, or 200 when
the handler returned without writing one. -/
def ResponseWriter.effectiveStatus (w : ResponseWriter) : Nat :=
  w.status.getD 200

/-- Decimal digits of `n`, least significant first, computed with
structural fuel so that it evaluates by kernel reduction.  Agrees with
`Nat.digits 10` once `n ≤ fuel` (lemma `decDigits_eq_digits`). -/
def decDigits : Nat → Nat → List Nat
  | 0, _ => []
  | fuel + 1, n => if n = 0 then [] else n % 10 :: decDigits fuel (n / 10)

/-- Decimal rendering of `n`, modelling `fmt.Sprintf("%d", n)` for a
nonnegative integer. -/
def natDecimal (n : Nat) : String :=
  if n = 0 then "0" else ((decDigits n n).reverse.map Nat.digitChar).asString

/-- The JSON keys `encoding/json` derives from the struct tags of
`coaster`, in field order. -/
def coasterJSONKeys : List String :=
  ["name", "manufactur", "id", "inPark", "height"]

/-- Modelled from the spec: the JSON keys the spec's data model
prescribes for a serialized coaster (spec section 6, "Coaster JSON
shape"). Stated separately from `coasterJSONKeys` so the two can be
compared. -/
def specCoasterJSONKeys : List String :=
  ["id", "name", "inPark", "manufacturer", "height"]

/-- Serialization of a `coaster` value as by `json.Marshal`: an object with the tagged keys
in struct-field order.  String escaping is not modelled; the values used
in the development contain no characters that need escaping. -/
def marshalCoaster (c : Coaster) : String :=
  "\x7b\"name\":\"" ++ c.name ++ "\",\"manufactur\":\"" ++ c.manufactur ++
    "\",\"id\":\"" ++ c.id ++ "\",\"inPark\":\"" ++ c.inPark ++
    "\",\"height\":" ++ toString c.height ++ "\x7d"

/-- The separator `strings.Split` is called with in `getCoaster`. -/
def slashChar : Char := Char.ofNat 47

/-- Go's `strings.Split` on a single-character separator, at the char-list
level: splits around every occurrence, keeping empty fields, and yields
one (empty) field for the empty string. -/
def splitChars (sep : Char) : List Char → List (List Char)
  | [] => [[]]
  | c :: rest =>
    if c = sep then [] :: splitChars sep rest
    else
      match splitChars sep rest with
      | [] => [[c]]
      | hd :: tl => (c :: hd) :: tl

/-- Models `strings.Split(s, sep)` for a one-character separator. -/
def goSplit (s : String) (sep : Char) : List String :=
  (splitChars sep s.data).map List.asString

/-- The POST /coasters handler (`coasterHandlers.post`).  Inputs: the
store, the `content-type` header value, the outcome of `json.Unmarshal`
on the body, and the current `time.Now().UnixNano()` reading.  On error,
`json.Unmarshal` hands back an error message together with the state it
left in the target variable `coasterBody`: the zero value when the body
is syntactically invalid JSON (Go validates before decoding), or a
partially populated record when decoding stopped at a field type error,
so the error case carries that pair.  Returns the response writer and
the updated store.  Mirrors the source control flow: each error path
writes status and message but does NOT return, so the handler always
falls through to assign an id and insert whatever `coasterBody` holds. -/
def post (st : Store) (ct : String) (parsed : Except (String × Coaster) Coaster) (nano : Nat) :
    ResponseWriter × Store :=
  let w₁ :=
    if ct != "application/json" then
      ResponseWriter.write (ResponseWriter.writeHeader ResponseWriter.empty 415)
        ("Need type of application/json but got \x27" ++ ct ++ "\x27")
    else ResponseWriter.empty
  match parsed with
  | Except.error ep =>
    let w₂ := ResponseWriter.write (ResponseWriter.writeHeader w₁ 400) ep.1
    let id := natDecimal nano
    (w₂, mapInsert st id { ep.2 with id := id })
  | Except.ok c =>
    let id := natDecimal nano
    (w₁, mapInsert st id { c with id := id })

/-- The coaster value the POST handler inserts (before the id is
overwritten): the parsed body on success, the decoded-so-far target
value on parse error. -/
def postedBody (parsed : Except (String × Coaster) Coaster) : Coaster :=
  match parsed with
  | Except.error ep => ep.2
  | Except.ok c => c

/-- One POST /coasters request: header, parse result, clock reading. -/
structure PostReq where
  ct : String
  parsed : Except (String × Coaster) Coaster
  nano : Nat

/-- A sequence of POST requests applied to a store, ignoring responses. -/
def runPosts : Store → List PostReq → Store
  | st, [] => st
  | st, r :: rs => runPosts (post st r.ct r.parsed r.nano).2 rs

/-- The GET /coasters/random handler (`getRandomCoaster`).  `randIntn`
stands for `rand.Intn`: its contract is `randIntn n < n` for `n > 0`.
The source indexes with `rand.Intn(len(ids)-1)`. -/
def getRandomCoaster (st : Store) (randIntn : Nat → Nat) : ResponseWriter :=
  let ids := storeKeys st
  if ids.length = 0 then
    ResponseWriter.writeHeader ResponseWriter.empty 404
  else
    let target :=
      if ids.length = 1 then ids.getD 0 ""
      else ids.getD (randIntn (ids.length - 1)) ""
    ResponseWriter.writeHeader
      (ResponseWriter.addHeader
        (ResponseWriter.addHeader ResponseWriter.empty "content-type" "application/json")
        "location" ("/coasters/" ++ target))
      302

/-- The GET /coasters/{id} handler (`getCoaster`).  `url` is
`r.URL.String()`, the full request URL including any query string; the
source splits it on the slash and takes the third segment as the id. -/
def getCoaster (st : Store) (url : String) (randIntn : Nat → Nat) : ResponseWriter :=
  let paths := goSplit url slashChar
  if paths.length ≠ 3 then
    ResponseWriter.write (ResponseWriter.writeHeader ResponseWriter.empty 404)
      "The url that you request is not found"
  else
    let id := paths.getD 2 ""
    if id = "random" then getRandomCoaster st randIntn
    else
      match mapGet st id with
      | none =>
        ResponseWriter.write (ResponseWriter.writeHeader ResponseWriter.empty 404)
          ("No content found for ID, \x27" ++ id ++ "\x27")
      | some c =>
        ResponseWriter.write
          (ResponseWriter.writeHeader
            (ResponseWriter.addHeader ResponseWriter.empty "content-type" "application/json")
            200)
          (marshalCoaster c)

/-- The HTML fragment the admin portal serves on success. -/
def adminWelcome : String :=
  "<div><h2 style=\x27color:orange;\x27>Wellcome, admin</h2></div>"

/-- The GET /admin handler (`adminPortal.handler`).  `ok`, `username`
and `password` are the results of `r.BasicAuth()`; `secret` is the
configured `ADMIN_PASSWORD`. -/
def adminHandler (secret : String) (ok : Bool) (username password : String) : ResponseWriter :=
  if !ok || username != "admin" || password != secret then
    ResponseWriter.write (ResponseWriter.writeHeader ResponseWriter.empty 401)
      "401 unauthorized"
  else
    ResponseWriter.write ResponseWriter.empty adminWelcome

/-- A concrete coaster used as a posted body; its client-supplied `id`
field is deliberately nonempty so the overwrite is visible. -/
def sampleCoaster : Coaster :=
  { name := "Kingda Ka", manufactur := "Intamin", id := "client-id",
    inPark := "Six Flags", height := 139 }

/-- The fuel-based decimal digit list agrees with `Nat.digits 10`. -/
theorem decDigits_eq_digits : ∀ fuel n : Nat, n ≤ fuel → decDigits fuel n = Nat.digits 10 n := by
  intro fuel
  induction fuel with
  | zero =>
    intro n hn
    interval_cases n
    simp [decDigits]
  | succ fuel ih =>
    intro n hn
    by_cases h0 : n = 0
    · simp [decDigits, h0]
    · have hpos : 0 < n := Nat.pos_of_ne_zero h0
      have hdiv : n / 10 < n := Nat.div_lt_self hpos (by norm_num)
      rw [decDigits, if_neg h0, ih (n / 10) (by omega),
        Nat.digits_def' (by norm_num : (1 : Nat) < 10) hpos]

/-- Distinct digits below 10 render as distinct characters. -/
theorem digitChar_inj_lt : ∀ a, a < 10 → ∀ b, b < 10 →
    Nat.digitChar a = Nat.digitChar b → a = b := by decide

/-- Mapping `Nat.digitChar` over lists of digits below 10 is injective. -/
theorem map_digitChar_inj : ∀ l₁ l₂ : List Nat, (∀ d ∈ l₁, d < 10) → (∀ d ∈ l₂, d < 10) →
    l₁.map Nat.digitChar = l₂.map Nat.digitChar → l₁ = l₂ := by
  intro l₁
  induction l₁ with
  | nil =>
    intro l₂ _ _ h
    cases l₂ with
    | nil => rfl
    | cons b bs => simp at h
  | cons a as ih =>
    intro l₂ h₁ h₂ h
    cases l₂ with
    | nil => simp at h
    | cons b bs =>
      simp only [List.map_cons, List.cons.injEq] at h
      have ha : a = b := digitChar_inj_lt a (h₁ a (by simp)) b (h₂ b (by simp)) h.1
      have hs : as = bs := ih bs (fun d hd => h₁ d (by simp [hd])) (fun d hd => h₂ d (by simp [hd])) h.2
      rw [ha, hs]

/-- Distinct char lists give distinct strings. -/
theorem asString_inj {l₁ l₂ : List Char} (h : l₁.asString = l₂.asString) : l₁ = l₂ :=
  congrArg String.data h

/-- Distinct naturals have distinct decimal renderings. -/
theorem natDecimal_injective : Function.Injective natDecimal := by
  intro a b h
  unfold natDecimal at h
  by_cases ha : a = 0 <;> by_cases hb : b = 0
  · rw [ha, hb]
  · rw [if_pos ha, if_neg hb, decDigits_eq_digits b b le_rfl] at h
    have hd := asString_inj h
    have hlt : ∀ d ∈ (Nat.digits 10 b).reverse, d < 10 := by
      intro d hd'
      exact Nat.digits_lt_base (by norm_num) (List.mem_reverse.mp hd')
    have h0 : (Nat.digits 10 b).reverse.map Nat.digitChar = [Nat.digitChar 0] := by
      rw [← hd]; rfl
    have : (Nat.digits 10 b).reverse = [0] :=
      map_digitChar_inj _ [0] hlt (by simp) (by simpa using h0)
    have hdig : Nat.digits 10 b = [0] := by
      have := congrArg List.reverse this
      simpa using this
    have : b = 0 := by
      have := Nat.ofDigits_digits 10 b
      rw [hdig] at this
      simpa [Nat.ofDigits] using this.symm
    exact absurd this hb
  · rw [if_neg ha, if_pos hb, decDigits_eq_digits a a le_rfl] at h
    have hd := asString_inj h
    have hlt : ∀ d ∈ (Nat.digits 10 a).reverse, d < 10 := by
      intro d hd'
      exact Nat.digits_lt_base (by norm_num) (List.mem_reverse.mp hd')
    have h0 : (Nat.digits 10 a).reverse.map Nat.digitChar = [Nat.digitChar 0] := by
      rw [hd]; rfl
    have : (Nat.digits 10 a).reverse = [0] :=
      map_digitChar_inj _ [0] hlt (by simp) (by simpa using h0)
    have hdig : Nat.digits 10 a = [0] := by
      have := congrArg List.reverse this
      simpa using this
    have : a = 0 := by
      have := Nat.ofDigits_digits 10 a
      rw [hdig] at this
      simpa [Nat.ofDigits] using this.symm
    exact absurd this ha
  · rw [if_neg ha, if_neg hb, decDigits_eq_digits a a le_rfl,
      decDigits_eq_digits b b le_rfl] at h
    have hd := asString_inj h
    have hmap := map_digitChar_inj (Nat.digits 10 a).reverse (Nat.digits 10 b).reverse
      (fun d hd' => Nat.digits_lt_base (by norm_num) (List.mem_reverse.mp hd'))
      (fun d hd' => Nat.digits_lt_base (by norm_num) (List.mem_reverse.mp hd')) hd
    have hdig : Nat.digits 10 a = Nat.digits 10 b := by
      have := congrArg List.reverse hmap
      simpa using this
    calc a = Nat.ofDigits 10 (Nat.digits 10 a) := (Nat.ofDigits_digits 10 a).symm
    _ = Nat.ofDigits 10 (Nat.digits 10 b) := by rw [hdig]
    _ = b := Nat.ofDigits_digits 10 b

/-- Inserting a key not present in the store appends a new binding. -/
theorem mapInsert_fresh (st : Store) (k : String) (v : Coaster)
    (h : k ∉ storeKeys st) : mapInsert st k v = st ++ [(k, v)] := by
  induction st with
  | nil => simp [mapInsert]
  | cons p rest ih =>
    simp only [storeKeys, List.map_cons, List.mem_cons] at h
    push_neg at h
    simp only [mapInsert, if_neg (Ne.symm h.1)]
    rw [ih (by simp [storeKeys, h.2])]
    simp

/-- The store after any POST: the posted (or decoded-so-far) coaster is
inserted under the freshly formatted id, whatever the content type and
whatever the parse outcome. -/
theorem post_store (st : Store) (ct : String) (parsed : Except (String × Coaster) Coaster)
    (nano : Nat) :
    (post st ct parsed nano).2 =
      mapInsert st (natDecimal nano) { postedBody parsed with id := natDecimal nano } := by
  cases parsed <;> rfl

/-- A run of POSTs whose formatted ids are fresh and pairwise distinct
appends one entry per request, in order. -/
theorem runPosts_eq_append : ∀ (reqs : List PostReq) (st : Store),
    (∀ r ∈ reqs, natDecimal r.nano ∉ storeKeys st) →
    ((reqs.map fun r => natDecimal r.nano).Pairwise (· ≠ ·)) →
    runPosts st reqs = st ++ reqs.map fun r =>
      (natDecimal r.nano, { postedBody r.parsed with id := natDecimal r.nano }) := by
  intro reqs
  induction reqs with
  | nil => intro st _ _; simp [runPosts]
  | cons r rs ih =>
    intro st hfresh hnodup
    simp only [List.map_cons, List.pairwise_cons] at hnodup
    have hkey : natDecimal r.nano ∉ storeKeys st := hfresh r (by simp)
    have hstep : (post st r.ct r.parsed r.nano).2 =
        st ++ [(natDecimal r.nano, { postedBody r.parsed with id := natDecimal r.nano })] := by
      rw [post_store, mapInsert_fresh _ _ _ hkey]
    have hkeys : storeKeys (st ++ [(natDecimal r.nano,
        { postedBody r.parsed with id := natDecimal r.nano })]) =
        storeKeys st ++ [natDecimal r.nano] := by
      simp [storeKeys]
    have hfresh' : ∀ r' ∈ rs, natDecimal r'.nano ∉ storeKeys (st ++ [(natDecimal r.nano,
        { postedBody r.parsed with id := natDecimal r.nano })]) := by
      intro r' hr'
      rw [hkeys]
      simp only [List.mem_append, List.mem_singleton]
      push_neg
      refine ⟨hfresh r' (by simp [hr']), ?_⟩
      intro heq
      exact hnodup.1 (natDecimal r'.nano) (List.mem_map_of_mem _ hr') heq.symm
    have h2 := ih (st ++ [(natDecimal r.nano,
        { postedBody r.parsed with id := natDecimal r.nano })]) hfresh' hnodup.2
    show runPosts (post st r.ct r.parsed r.nano).2 rs = _
    rw [hstep, h2]
    simp

/-- Claim C1: a POST whose content-type is not application/json is claimed
to respond 415 and leave the store unchanged.  The code does respond 415
naming the offending value, but it does not return early: at content-type
text/plain with a parsable body and clock reading 9, the handler still
assigns id "9" and inserts the record, so the store grows from empty to
one entry. -/
theorem c1_post_415_still_inserts :
    post [] "text/plain" (Except.ok zeroCoaster) 9 =
      ({ status := some 415,
         body := ["Need type of application/json but got \x27text/plain\x27"],
         headers := [] },
       [("9", { zeroCoaster with id := "9" })]) := by decide

/-- Claim C3: a well-formed POST with the right content-type is claimed
to respond 201 with the created coaster as JSON.  The code's success path
writes neither a status nor a body: the response writer is untouched (Go
would then send an implicit 200 with an empty body, not 201 with JSON). -/
theorem c3_post_success_writes_nothing (st : Store) (c : Coaster) (nano : Nat) :
    (post st "application/json" (Except.ok c) nano).1 = ResponseWriter.empty := rfl

/-- Claim C4: coaster JSON is claimed to use exactly the keys id, name,
inPark, manufacturer, height.  The struct tag of the manufacturer field
is `manufactur`: the serialized zero coaster contains the key
"manufactur" and not "manufacturer", and the key set of the code differs
from the one the spec prescribes. -/
theorem c4_manufactur_key :
    List.IsInfix ("\"manufactur\":").data (marshalCoaster zeroCoaster).data ∧
    ¬ List.IsInfix ("\"manufacturer\":").data (marshalCoaster zeroCoaster).data ∧
    "manufacturer" ∉ coasterJSONKeys ∧
    specCoasterJSONKeys ≠ coasterJSONKeys := by decide

/-- Claim C5: posting a valid coaster is claimed to yield a response
carrying a fresh non-empty id under which a GET returns the record.  At
clock reading 42 the code stores `sampleCoaster` under the assigned id
"42" (overwriting the client-supplied id) and GET /coasters/42 returns
it — the store-level round trip holds — but the POST response writer is
completely empty, so no response id exists. -/
theorem c5_roundtrip_but_no_response :
    (post [] "application/json" (Except.ok sampleCoaster) 42).1 = ResponseWriter.empty ∧
    mapGet (post [] "application/json" (Except.ok sampleCoaster) 42).2 "42" =
      some { sampleCoaster with id := "42" } ∧
    getCoaster (post [] "application/json" (Except.ok sampleCoaster) 42).2
        "/coasters/42" (fun _ => 0) =
      { status := some 200, body := [marshalCoaster { sampleCoaster with id := "42" }],
        headers := [("content-type", "application/json")] } := by
  refine ⟨rfl, by decide, ?_⟩
  decide

/-- Claim C9 counterexample: the claim says the record inserted on the
400 path is zero-valued, but `json.Unmarshal` populates the fields it
decoded before hitting a field type error.  For the body
`\x7b"name":"x","height":"h"\x7d` the target holds name "x" when the
`UnmarshalTypeError` for height is returned, so at clock reading 7 the
handler inserts a record whose name field is "x", not the zero-valued
coaster. -/
theorem c9_counterexample :
    (post [] "application/json"
        (Except.error
          ("json: cannot unmarshal string into Go struct field coaster.height of type int",
            { zeroCoaster with name := "x" })) 7).2 =
      [("7", { zeroCoaster with name := "x", id := "7" })] ∧
    ¬ (post [] "application/json"
        (Except.error
          ("json: cannot unmarshal string into Go struct field coaster.height of type int",
            { zeroCoaster with name := "x" })) 7).2 =
      [("7", { zeroCoaster with id := "7" })] := by decide

/-- Claim C9 (amended): a POST with the right content-type whose body
fails JSON deserialization writes the 400 response with the error detail
and then still assigns a fresh id and inserts a coaster record — the
target struct as `json.Unmarshal` left it, zero-valued for invalid JSON
but possibly partially populated when decoding stopped at a field type
error — so the store grows by one entry on the 400 error path. -/
theorem c9_bad_json_400_grows_store (st : Store) (e : String) (decoded : Coaster) (nano : Nat)
    (hfresh : natDecimal nano ∉ storeKeys st) :
    (post st "application/json" (Except.error (e, decoded)) nano).1 =
      { status := some 400, body := [e], headers := [] } ∧
    (post st "application/json" (Except.error (e, decoded)) nano).2 =
      st ++ [(natDecimal nano, { decoded with id := natDecimal nano })] ∧
    ((post st "application/json" (Except.error (e, decoded)) nano).2).length =
      st.length + 1 := by
  have h2 : (post st "application/json" (Except.error (e, decoded)) nano).2 =
      st ++ [(natDecimal nano, { decoded with id := natDecimal nano })] := by
    rw [post_store, mapInsert_fresh _ _ _ hfresh]; rfl
  exact ⟨rfl, h2, by rw [h2]; simp⟩

/-- Witness: an invalid-JSON body (target left at the zero value) posted
to the empty store at clock reading 7. -/
theorem c9_witness :
    (natDecimal 7 ∉ storeKeys []) ∧
    ((post [] "application/json" (Except.error ("bad", zeroCoaster)) 7).1 =
      { status := some 400, body := ["bad"], headers := [] } ∧
    (post [] "application/json" (Except.error ("bad", zeroCoaster)) 7).2 =
      ([] : Store) ++ [(natDecimal 7, { zeroCoaster with id := natDecimal 7 })] ∧
    ((post [] "application/json" (Except.error ("bad", zeroCoaster)) 7).2).length =
      ([] : Store).length + 1) :=
  ⟨by decide, c9_bad_json_400_grows_store [] "bad" zeroCoaster 7 (by decide)⟩

/-- Claim C10: the id of a GET under /coasters/ is taken by splitting the
full URL string on the slash, so a request for an existing id "abc" with
a query string appended looks up the key "abc?k=v" and responds 404 with
a message naming that composite key, even though "abc" is stored. -/
theorem c10_query_string_404 (st : Store) (c : Coaster) (f : Nat → Nat)
    (_hin : mapGet st "abc" = some c) (hmiss : mapGet st "abc?k=v" = none) :
    getCoaster st "/coasters/abc?k=v" f =
      { status := some 404, body := ["No content found for ID, \x27abc?k=v\x27"],
        headers := [] } := by
  have hsplit : goSplit "/coasters/abc?k=v" slashChar = ["", "coasters", "abc?k=v"] := by
    decide
  unfold getCoaster
  rw [hsplit]
  show (match mapGet st "abc?k=v" with
      | none => ResponseWriter.write (ResponseWriter.writeHeader ResponseWriter.empty 404)
          ("No content found for ID, \x27" ++ "abc?k=v" ++ "\x27")
      | some c => ResponseWriter.write (ResponseWriter.writeHeader
          (ResponseWriter.addHeader ResponseWriter.empty "content-type" "application/json") 200)
          (marshalCoaster c)) = _
  rw [hmiss]
  decide

/-- Witness: the store holding exactly the id "abc". -/
theorem c10_witness :
    (mapGet [("abc", zeroCoaster)] "abc" = some zeroCoaster) ∧
    (mapGet [("abc", zeroCoaster)] "abc?k=v" = none) ∧
    getCoaster [("abc", zeroCoaster)] "/coasters/abc?k=v" (fun _ => 0) =
      { status := some 404, body := ["No content found for ID, \x27abc?k=v\x27"],
        headers := [] } :=
  ⟨by decide, by decide,
    c10_query_string_404 [("abc", zeroCoaster)] zeroCoaster (fun _ => 0)
      (by decide) (by decide)⟩

/-- Claim C2: the random redirect is claimed to draw over the full index
range 0..N-1 so every stored id is selectable.  The code draws
`rand.Intn(len(ids)-1)`: on a two-coaster store with snapshot ids
["1", "2"], every admissible random source (`randIntn n < n` for `n > 0`)
yields the redirect to "/coasters/1" — the id at the last index is
returned for no value of the random source. -/
theorem c2_last_id_never_selected (f : Nat → Nat) (hf : ∀ n, 0 < n → f n < n) :
    getRandomCoaster [("1", zeroCoaster), ("2", zeroCoaster)] f =
      { status := some 302, body := [],
        headers := [("content-type", "application/json"), ("location", "/coasters/1")] } := by
  have h1 : f 1 = 0 := Nat.lt_one_iff.mp (hf 1 Nat.one_pos)
  unfold getRandomCoaster
  show ResponseWriter.writeHeader
      (ResponseWriter.addHeader
        (ResponseWriter.addHeader ResponseWriter.empty "content-type" "application/json")
        "location" ("/coasters/" ++ (["1", "2"] : List String).getD (f 1) "")) 302 = _
  rw [h1]
  decide

/-- Witness: the constant-zero random source is admissible and selects id "1". -/
theorem c2_witness :
    (∀ n, 0 < n → (fun _ => 0 : Nat → Nat) n < n) ∧
    getRandomCoaster [("1", zeroCoaster), ("2", zeroCoaster)] (fun _ => 0) =
      { status := some 302, body := [],
        headers := [("content-type", "application/json"), ("location", "/coasters/1")] } :=
  ⟨fun _ h => h, c2_last_id_never_selected (fun _ => 0) (fun _ h => h)⟩

/-- Claim C6: in every store reachable by a sequence of POSTs whose
UnixNano readings are strictly increasing, each stored record's id equals
its key and is the decimal rendering of the server clock at its creation
(any client-supplied id is overwritten), and the keys are pairwise
distinct. -/
theorem c6_ids_server_assigned_unique (reqs : List PostReq)
    (hmono : (reqs.map PostReq.nano).Pairwise (· < ·)) :
    (∀ p ∈ runPosts [] reqs, p.2.id = p.1 ∧ ∃ r ∈ reqs, p.1 = natDecimal r.nano) ∧
    (storeKeys (runPosts [] reqs)).Nodup := by
  have hne : (reqs.map fun r => natDecimal r.nano).Pairwise (· ≠ ·) := by
    rw [List.pairwise_map]
    rw [List.pairwise_map] at hmono
    exact hmono.imp fun h heq => absurd (natDecimal_injective heq) (Nat.ne_of_lt h)
  rw [runPosts_eq_append reqs [] (by simp [storeKeys]) hne]
  constructor
  · intro p hp
    simp only [List.nil_append, List.mem_map] at hp
    obtain ⟨r, hr, rfl⟩ := hp
    exact ⟨rfl, r, hr, rfl⟩
  · simp only [List.nil_append, storeKeys, List.map_map]
    exact hne

/-- Witness: two posts at clock readings 3 and 7. -/
theorem c6_witness :
    (([⟨"application/json", Except.ok zeroCoaster, 3⟩,
       ⟨"text/plain", Except.error ("bad", zeroCoaster), 7⟩] :
        List PostReq).map PostReq.nano).Pairwise (· < ·) ∧
    ((∀ p ∈ runPosts [] [⟨"application/json", Except.ok zeroCoaster, 3⟩,
        ⟨"text/plain", Except.error ("bad", zeroCoaster), 7⟩], p.2.id = p.1 ∧
        ∃ r ∈ ([⟨"application/json", Except.ok zeroCoaster, 3⟩,
          ⟨"text/plain", Except.error ("bad", zeroCoaster), 7⟩] : List PostReq),
          p.1 = natDecimal r.nano) ∧
      (storeKeys (runPosts [] [⟨"application/json", Except.ok zeroCoaster, 3⟩,
        ⟨"text/plain", Except.error ("bad", zeroCoaster), 7⟩])).Nodup) :=
  ⟨by decide,
    c6_ids_server_assigned_unique
      [⟨"application/json", Except.ok zeroCoaster, 3⟩,
       ⟨"text/plain", Except.error ("bad", zeroCoaster), 7⟩]
      (by decide)⟩

/-- Claim C7: GET /coasters/random responds 404 on an empty store;
on a one-coaster store it deterministically redirects to that coaster;
on any non-empty store the response is a 302 whose location header is
/coasters/{id} for some stored id. -/
theorem c7_random_redirect (st : Store) (f : Nat → Nat) (hf : ∀ n, 0 < n → f n < n) :
    (st = [] → getRandomCoaster st f = ResponseWriter.writeHeader ResponseWriter.empty 404) ∧
    (∀ k c, st = [(k, c)] →
      getRandomCoaster st f =
        { status := some 302, body := [],
          headers := [("content-type", "application/json"),
            ("location", "/coasters/" ++ k)] }) ∧
    (st ≠ [] → ∃ id ∈ storeKeys st,
      getRandomCoaster st f =
        { status := some 302, body := [],
          headers := [("content-type", "application/json"),
            ("location", "/coasters/" ++ id)] }) := by
  refine ⟨?_, ?_, ?_⟩
  · intro h; rw [h]; rfl
  · intro k c h; rw [h]; rfl
  · intro hne
    have hlen : 0 < (storeKeys st).length := by
      cases st with
      | nil => exact absurd rfl hne
      | cons p rest => simp [storeKeys]
    have hidx : (if (storeKeys st).length = 1 then 0 else f ((storeKeys st).length - 1))
        < (storeKeys st).length := by
      by_cases h1 : (storeKeys st).length = 1
      · rw [if_pos h1, h1]; norm_num
      · rw [if_neg h1]
        have h2 : 2 ≤ (storeKeys st).length := by omega
        have := hf ((storeKeys st).length - 1) (by omega)
        omega
    refine ⟨(storeKeys st).getD (if (storeKeys st).length = 1 then 0
      else f ((storeKeys st).length - 1)) "", ?_, ?_⟩
    · rw [List.getD_eq_getElem _ _ hidx]
      exact List.getElem_mem hidx
    · unfold getRandomCoaster
      rw [if_neg (by omega)]
      by_cases h1 : (storeKeys st).length = 1
      · rw [if_pos h1, if_pos h1]; rfl
      · rw [if_neg h1, if_neg h1]; rfl

/-- Witness: a one-coaster store under the constant-zero random source. -/
theorem c7_witness :
    (∀ n, 0 < n → (fun _ => 0 : Nat → Nat) n < n) ∧
    ((([("a", zeroCoaster)] : Store) = [] →
      getRandomCoaster [("a", zeroCoaster)] (fun _ => 0) =
        ResponseWriter.writeHeader ResponseWriter.empty 404) ∧
    (∀ k c, ([("a", zeroCoaster)] : Store) = [(k, c)] →
      getRandomCoaster [("a", zeroCoaster)] (fun _ => 0) =
        { status := some 302, body := [],
          headers := [("content-type", "application/json"),
            ("location", "/coasters/" ++ k)] }) ∧
    (([("a", zeroCoaster)] : Store) ≠ [] → ∃ id ∈ storeKeys [("a", zeroCoaster)],
      getRandomCoaster [("a", zeroCoaster)] (fun _ => 0) =
        { status := some 302, body := [],
          headers := [("content-type", "application/json"),
            ("location", "/coasters/" ++ id)] })) :=
  ⟨fun _ h => h, c7_random_redirect [("a", zeroCoaster)] (fun _ => 0) (fun _ h => h)⟩

/-- Claim C8: GET /admin responds 401 with the plain-text unauthorized
message if and only if credentials are absent, the username is not
"admin", or the password differs from the configured secret; and it
responds 200 with the HTML welcome fragment if and only if none of those
hold. -/
theorem c8_admin_auth (secret : String) (ok : Bool) (username password : String) :
    (adminHandler secret ok username password =
        { status := some 401, body := ["401 unauthorized"], headers := [] } ↔
      (ok = false ∨ username ≠ "admin" ∨ password ≠ secret)) ∧
    (adminHandler secret ok username password =
        { status := some 200, body := [adminWelcome], headers := [] } ↔
      ¬ (ok = false ∨ username ≠ "admin" ∨ password ≠ secret)) := by
  unfold adminHandler
  by_cases hc : (!ok || username != "admin" || password != secret) = true
  · rw [if_pos hc]
    simp only [Bool.or_eq_true, Bool.not_eq_true', bne_iff_ne] at hc
    have hcond : ok = false ∨ username ≠ "admin" ∨ password ≠ secret := or_assoc.mp hc
    refine ⟨iff_of_true rfl hcond, iff_of_false ?_ (not_not_intro hcond)⟩
    intro h
    have h2 : (some 401 : Option Nat) = some 200 := congrArg ResponseWriter.status h
    exact absurd h2 (by decide)
  · rw [if_neg hc]
    have hok : ok = true ∧ username = "admin" ∧ password = secret := by
      cases ok with
      | false => exact absurd (by simp) hc
      | true =>
        refine ⟨rfl, ?_, ?_⟩ <;> by_contra hne
        · exact hc (by simp [bne_iff_ne, hne])
        · exact hc (by simp [bne_iff_ne, hne])
    have hncond : ¬ (ok = false ∨ username ≠ "admin" ∨ password ≠ secret) := by
      rintro (h | h | h)
      · rw [hok.1] at h; exact absurd h (by simp)
      · exact absurd hok.2.1 h
      · exact absurd hok.2.2 h
    refine ⟨iff_of_false ?_ hncond, iff_of_true rfl hncond⟩
    intro h
    have h2 : (some 200 : Option Nat) = some 401 := congrArg ResponseWriter.status h
    exact absurd h2 (by decide)

/-- Witness: the admin logging in with the configured secret. -/
theorem c8_witness :
    (¬ ((true : Bool) = false ∨ ("admin" : String) ≠ "admin" ∨
      ("secret" : String) ≠ "secret")) ∧
    adminHandler "secret" true "admin" "secret" =
      { status := some 200, body := [adminWelcome], headers := [] } :=
  ⟨by decide, (c8_admin_auth "secret" true "admin" "secret").2.mpr (by decide)⟩
